import Mathlib

set_option maxRecDepth 4000
set_option autoImplicit false

/-!
Verification of the khack2026 episode-generation backend.

Shallow embedding of the three Python modules:
- `CreateEpisodeEngine` models `src/backend/create_episode_engine.py`
  (schema validator and the validation/repair retry loop);
- `VeoService` models `src/backend/veo_service.py`
  (prompt composition, per-scene media loop, stitching, response assembly);
- `MainApi` models `src/backend/main.py`
  (signed-URL helper and the `GET /episodes/{episode_id}` endpoint).

External collaborators (Gemini text generation, Veo video generation, GCS
signing, local file paths) are modelled as explicit oracle parameters, so every
embedded function is a pure, executable Lean function of its inputs and oracles.
-/

namespace Py

/-- Whether the first list of code points is a prefix of the second
(structural, so every concrete instance evaluates in the kernel). -/
def isPrefixOf : List Char → List Char → Bool
  | [], _ => true
  | _ :: _, [] => false
  | c :: cs, d :: ds => c == d && isPrefixOf cs ds

/-- Python `s.startswith(p)`: Python strings are sequences of code points,
matching Lean's `String.data`. -/
def startswith (s p : String) : Bool := isPrefixOf p.data s.data

/-- Python `len(s)` (code points). -/
def strlen (s : String) : Nat := s.data.length

/-- Python slicing `s[n:]` (code points). -/
def dropChars (s : String) (n : Nat) : String := ⟨s.data.drop n⟩

/-- Python `s.replace(old, new)` on code-point lists, every (non-overlapping,
left-to-right) occurrence replaced.  The fuel is the input length: each step
consumes at least one code point, so the fuel never runs out on the initial
call. -/
def replaceFuel (old new : List Char) : Nat → List Char → List Char
  | 0, s => s
  | _ + 1, [] => if old.isEmpty then new else []
  | fuel + 1, c :: cs =>
    if old.isEmpty then new ++ (c :: replaceFuel old new fuel cs)
    else if isPrefixOf old (c :: cs) then
      new ++ replaceFuel old new fuel (List.drop (old.length - 1) cs)
    else c :: replaceFuel old new fuel cs

/-- Python `s.replace(old, new)`. -/
def replace (s old new : String) : String :=
  ⟨replaceFuel old.data new.data s.data.length s.data⟩

/-- Splits at the first occurrence of a non-empty separator, if any. -/
def splitOnceAux (sep : List Char) : List Char → Option (List Char × List Char)
  | [] => none
  | c :: cs =>
    if isPrefixOf sep (c :: cs) then some ([], List.drop (sep.length - 1) cs)
    else
      match splitOnceAux sep cs with
      | some (pre, post) => some (c :: pre, post)
      | none => none

/-- Python `s.split(sep, 1)` for a non-empty separator (the only way the
source calls it). -/
def splitOnce (s sep : String) : List String :=
  match splitOnceAux sep.data s.data with
  | some (pre, post) => [⟨pre⟩, ⟨post⟩]
  | none => [s]

/-- Python `s.split(sep)[0]` for a non-empty separator: the part before the
first occurrence, or the whole string when the separator is absent. -/
def splitFirst (s sep : String) : String :=
  match splitOnceAux sep.data s.data with
  | some (pre, _) => ⟨pre⟩
  | none => s

end Py

namespace CreateEpisodeEngine

/-- JSON values as decoded by `json.loads` and manipulated by the validator.
Python floats are not modelled: no claim exercises them, and every value the
pipeline's own prompts request is a string, integer, boolean, array or object
value.  Arrays carry arbitrary JSON values. -/
inductive JVal where
  | str (s : String)
  | int (n : Int)
  | bool (b : Bool)
  | list (xs : List JVal)
  | null

/-- First-match lookup in a Python dict, decoded as an association list
(Python dict keys are unique, so first-match agrees with dict lookup). -/
def getVal : List (String × JVal) → String → Option JVal
  | [], _ => none
  | (k, v) :: rest, key => if k = key then some v else getVal rest key

/-- Python `key in d`. -/
def containsKey (d : List (String × JVal)) (key : String) : Bool :=
  (getVal d key).isSome

/-- Python `d.get(key, default)`. -/
def getD (d : List (String × JVal)) (key : String) (dflt : JVal) : JVal :=
  (getVal d key).getD dflt

/-- A scene entry of the decoded `scenes` array: a Python dict. -/
abbrev Scene := List (String × JVal)

/-- Python `repr` of a decoded JSON value.  For strings we use Python's
default single-quote rendering (exact for strings free of quotes, backslashes
and control characters — the only strings the pipeline's messages render). -/
def pyRepr : JVal → String
  | .str s => "'" ++ s ++ "'"
  | .int n => toString n
  | .bool true => "True"
  | .bool false => "False"
  | .null => "None"
  | .list [] => "[]"
  | .list (x :: xs) => "[" ++ pyRepr x ++ pyReprTail xs ++ "]"
where
  /-- Renders `, e` for each remaining element, as Python's list repr does. -/
  pyReprTail : List JVal → String
  | [] => ""
  | x :: xs => ", " ++ pyRepr x ++ pyReprTail xs

/-- Python `str` of a decoded JSON value, as an f-string interpolates it:
identity on strings, `repr`-based for every other type. -/
def pyStr : JVal → String
  | .str s => s
  | v => pyRepr v

/-- Python `str` of a bool (`str(True) = "True"`). -/
def pyBoolStr : Bool → String
  | true => "True"
  | false => "False"

/-- Python `==` between a decoded JSON value and a bool.  Python identifies
`True` with `1` and `False` with `0`; every non-numeric value compares
unequal to a bool. -/
def pyEqBool : JVal → Bool → Bool
  | .bool b, c => b == c
  | .int n, c => n == (if c then 1 else 0)
  | _, _ => false

/-- Python truthiness of a decoded JSON value (`if x:`). -/
def pyTruthy : JVal → Bool
  | .str s => !s.isEmpty
  | .int n => n != 0
  | .bool b => b
  | .list xs => !xs.isEmpty
  | .null => false

/-- Python `isinstance(v, list)`. -/
def pyIsList : JVal → Bool
  | .list _ => true
  | _ => false

/-- Python `isinstance(v, int)`.  Python's `bool` is a subclass of `int`, so
booleans count as ints. -/
def pyIsInt : JVal → Bool
  | .int _ => true
  | .bool _ => true
  | _ => false

/-- The integer value of a Python int-like value (`True` is `1`). -/
def pyIntVal : JVal → Int
  | .int n => n
  | .bool true => 1
  | .bool false => 0
  | _ => 0

/-- Python `scene_num in INTERACTIVE_SCENE_INDICES` for the set `{2, 4, 6}`.
Ints use numeric equality; a bool hashes as `0`/`1`, neither in the set; a
string is never equal to an int.  (A list-valued `scene_number` would raise
`TypeError: unhashable` in Python; no claim exercises that corner, and the
model returns `false` there.) -/
def inInteractiveSceneIndices : JVal → Bool
  | .int n => n == 2 || n == 4 || n == 6
  | _ => false

/-- `MAX_VALIDATION_RETRIES` from `create_episode_engine.py`. -/
def MAX_VALIDATION_RETRIES : Nat := 3

/-- `REQUIRED_SCENE_COUNT` from `create_episode_engine.py`. -/
def REQUIRED_SCENE_COUNT : Nat := 8

/-- An episode document as the validator inspects it.  The validator reads the
four non-`scenes` top-level required fields only through `field in
episode_data`, so only their presence is modelled; `scenes` is `none` when the
key is absent, otherwise the decoded array of scene dicts. -/
structure EpisodeData where
  has_episode_id : Bool
  has_title : Bool
  has_description : Bool
  has_skills : Bool
  scenes : Option (List Scene)

/-- `required_fields` of `validate_episode_schema`. -/
def requiredTopFields : List String :=
  ["episode_id", "title", "description", "skills", "scenes"]

/-- Presence of a top-level required field in the document dict. -/
def topFieldPresent (d : EpisodeData) : String → Bool
  | "episode_id" => d.has_episode_id
  | "title" => d.has_title
  | "description" => d.has_description
  | "skills" => d.has_skills
  | "scenes" => d.scenes.isSome
  | _ => false

/-- The `Missing required field: ...` messages collected by the first loop of
`validate_episode_schema`, in field order. -/
def topFieldMissingErrors (d : EpisodeData) : List String :=
  requiredTopFields.filterMap fun f =>
    if topFieldPresent d f then none
    else some ("Missing required field: " ++ f)

/-- `required_scene_fields` of `validate_episode_schema`. -/
def requiredSceneFields : List String :=
  ["scene_number", "interaction", "video_url", "prompt", "dialogue"]

/-- `interactive_fields` (also re-listed verbatim as `forbidden_fields`) of
`validate_episode_schema`. -/
def interactiveFields : List String :=
  ["interaction_type", "question", "options", "correct_answer_index",
   "correct_feedback_url", "incorrect_feedback_url", "idle_url"]

/-- The errors one iteration of the scene loop of `validate_episode_schema`
appends for the scene at 1-based position `i`, in the order the Python code
appends them: missing required scene fields, then the interaction-flag check,
then (for truthy `interaction`) missing interactive fields, the `options`
check and the `correct_answer_index` check, else the forbidden-field check. -/
def sceneErrors (i : Nat) (scene : Scene) : List String :=
  let scene_num := getD scene "scene_number" (JVal.int i)
  let missingReq := requiredSceneFields.filterMap fun f =>
    if containsKey scene f then none
    else some ("Scene " ++ pyStr scene_num ++ ": Missing required field '" ++ f ++ "'")
  let is_interactive := getD scene "interaction" (JVal.bool false)
  let should_be := inInteractiveSceneIndices scene_num
  let flagErrs :=
    if pyEqBool is_interactive should_be then []
    else ["Scene " ++ pyStr scene_num ++ ": interaction should be "
            ++ pyBoolStr should_be ++ ", got " ++ pyStr is_interactive]
  let interactiveErrs :=
    if pyTruthy is_interactive then
      (interactiveFields.filterMap fun f =>
        if containsKey scene f then none
        else some ("Scene " ++ pyStr scene_num ++ ": Interactive scene missing '" ++ f ++ "'"))
      ++ (match getVal scene "options" with
          | some v =>
            if pyIsList v && (match v with | .list xs => xs.length == 4 | _ => false) then []
            else ["Scene " ++ pyStr scene_num ++ ": 'options' must be a list of exactly 4 items"]
          | none => [])
      ++ (match getVal scene "correct_answer_index" with
          | some v =>
            if pyIsInt v && decide (0 ≤ pyIntVal v) && decide (pyIntVal v ≤ 3) then []
            else ["Scene " ++ pyStr scene_num ++ ": 'correct_answer_index' must be 0-3"]
          | none => [])
    else []
  let nonInteractiveErrs :=
    if pyTruthy is_interactive then []
    else interactiveFields.filterMap fun f =>
      if containsKey scene f then
        some ("Scene " ++ pyStr scene_num ++ ": Non-interactive scene should not have '" ++ f ++ "'")
      else none
  missingReq ++ flagErrs ++ interactiveErrs ++ nonInteractiveErrs

/-- The scene loop `for i, scene in enumerate(scenes, start=1)`, started at
1-based position `i`. -/
def scenesErrorsFrom : Nat → List Scene → List String
  | _, [] => []
  | i, s :: rest => sceneErrors i s ++ scenesErrorsFrom (i + 1) rest

/-- The scene-count message of `validate_episode_schema`. -/
def sceneCountError (count : Nat) : List String :=
  if count = REQUIRED_SCENE_COUNT then []
  else ["Expected " ++ toString REQUIRED_SCENE_COUNT ++ " scenes, got " ++ toString count]

/-- `validate_episode_schema` from `create_episode_engine.py`: collects the
top-level missing-field messages, returns early when `scenes` is absent,
otherwise appends the scene-count message (without returning early) and the
per-scene messages, and reports validity as emptiness of the message list. -/
def validate_episode_schema (d : EpisodeData) : Bool × List String :=
  let errors := topFieldMissingErrors d
  match d.scenes with
  | none => (false, errors ++ ["Missing 'scenes' field"])
  | some scenes =>
    let errors := errors ++ sceneCountError scenes.length
    let errors := errors ++ scenesErrorsFrom 1 scenes
    (errors.isEmpty, errors)

/-- Outcome of the validation/retry loop of `generate_episode`: a validated
document, the `ValueError` raised when the retry budget is exhausted (carrying
the final violation list), or the trailing `ValueError("should not reach
here")` after the loop. -/
inductive PipelineResult where
  | ok (doc : EpisodeData)
  | exhausted (errors : List String)
  | unreachable

/-- A run of the validation/retry loop together with how many times
`validate_episode_schema` was invoked and how many times the repair agent
(`repair_episode_with_gemini`) was invoked. -/
structure LoopTrace where
  result : PipelineResult
  validations : Nat
  repairs : Nat

/-- The body of `for attempt in range(MAX_VALIDATION_RETRIES)` in
`generate_episode`, with `fuel = MAX_VALIDATION_RETRIES - attempt` remaining
iterations; the Python guard `attempt < MAX_VALIDATION_RETRIES - 1` is exactly
`fuel' > 0` for the remaining fuel `fuel'` after this iteration.  The repair
agent is an oracle mapping the current document and the violation list to the
repaired document. -/
def validationLoopFrom (repair : EpisodeData → List String → EpisodeData) :
    Nat → EpisodeData → Nat → Nat → LoopTrace
  | 0, _, v, r => ⟨.unreachable, v, r⟩
  | fuel + 1, doc, v, r =>
    let res := validate_episode_schema doc
    if res.1 then ⟨.ok doc, v + 1, r⟩
    else if fuel > 0 then
      validationLoopFrom repair fuel (repair doc res.2) (v + 1) (r + 1)
    else ⟨.exhausted res.2, v + 1, r⟩

/-- The validation-and-retry phase of `generate_episode` (lines 649-673 of
`create_episode_engine.py`), applied to the document produced by the plan and
expansion phases. -/
def generate_episode_validation (repair : EpisodeData → List String → EpisodeData)
    (doc : EpisodeData) : LoopTrace :=
  validationLoopFrom repair MAX_VALIDATION_RETRIES doc 0 0

/-- The shape of `json.loads(response.text)` as `expand_scene` inspects it:
a JSON object (Python `dict`), a JSON array (Python `list`) of such values,
or any other JSON value (string, number, boolean, null) — `other`. -/
inductive ParsedScene where
  | record (d : Scene)
  | seq (xs : List ParsedScene)
  | other

/-- The response handling at the end of `expand_scene`
(`create_episode_engine.py` lines 511-520): a non-empty list is unwrapped to
its first element (returned as is, whatever it is); a dict is returned
unchanged; anything else (including an empty list) falls back to the original
scene stub, with only a warning printed. -/
def expand_scene_result (scene_stub : Scene) (expanded_scene : ParsedScene) : ParsedScene :=
  match expanded_scene with
  | .seq (first :: _) => first
  | .record d => .record d
  | _ => .record scene_stub

end CreateEpisodeEngine

namespace VeoService

/-- `BUCKET_NAME` from `veo_service.py` (the `VEO_BUCKET` default). -/
def BUCKET_NAME : String := "veo-video-gen-interactive-episodes"

/-- `REQUIRE_SCENE_COUNT` from `veo_service.py`: the environment default is
`"0"`, which disables the exact-count requirement. -/
def REQUIRE_SCENE_COUNT : Nat := 0

/-- `GLOBAL_VOICE_PROMPT` from `veo_service.py`, with Python's adjacent string
literals concatenated exactly (including the missing space after
`all scenes.`). -/
def GLOBAL_VOICE_PROMPT : String :=
  "Use a cartoon-style male voice that is friendly, warm, and expressive. "
  ++ "Use SAME VOICE across all scenes."
  ++ "Tone should be light, energetic, and natural with clear articulation. "
  ++ "Avoid deep, harsh, monotone, robotic, or overly dramatic delivery."

/-- `GLOBAL_STYLE_PROMPT` from `veo_service.py`. -/
def GLOBAL_STYLE_PROMPT : String :=
  "High-quality 3D animated cartoon style with vibrant color palette and bright lighting. "
  ++ "Expressive character acting and clear facial expressions. "
  ++ "Smooth, lively motion and clean composition with gentle depth of field. "
  ++ "\n\n"
  ++ "CRITICAL CHARACTER CONSISTENCY REQUIREMENTS:\n"
  ++ "- The main character MUST match the provided reference image EXACTLY across ALL scenes\n"
  ++ "- NO redesign, reinterpretation, or variation of the character\n"
  ++ "- Keep IDENTICAL: face shape, eyes, mouth, fur/skin tone, markings, outfit, accessories, proportions, and style\n"
  ++ "- The character should look like the SAME individual in every scene with NO random changes\n"
  ++ "- Maintain exact facial features, clothing, and color palette from the reference image\n"
  ++ "- Character appearance must be perfectly consistent from scene to scene\n"
  ++ "\n"
  ++ "Add light, upbeat instrumental background music at a low volume under the dialogue."

/-- Python truthiness of an `Optional[str]` (`if dialogue:`): `None` and the
empty string are falsy. -/
def pyTruthyOptStr : Option String → Bool
  | some s => !s.isEmpty
  | none => false

/-- Python truthiness of an `Optional[bool]` (`if scene.interaction:`). -/
def pyTruthyOptBool : Option Bool → Bool
  | some b => b
  | none => false

/-- `build_prompt` from `veo_service.py`: starts from the scene visual prompt,
appends the labelled global style rules, appends the labelled spoken dialogue
line only when `dialogue` is truthy, appends the labelled global voice rules,
and joins the parts with newlines. -/
def build_prompt (scene_prompt : String) (dialogue : Option String) : String :=
  let parts := [scene_prompt]
  let parts := parts ++ ["Global style rules: " ++ GLOBAL_STYLE_PROMPT]
  let parts :=
    if pyTruthyOptStr dialogue then
      parts ++ ["Spoken dialogue: \"" ++ dialogue.getD "" ++ "\""]
    else parts
  let parts := parts ++ ["Voice style rules: " ++ GLOBAL_VOICE_PROMPT]
  String.intercalate "\n" parts

/-- `gcs_object_name_from_uri` from `veo_service.py`: strips the bucket's
`gs://` prefix, or the bucket's public HTTPS prefix dropping query parameters;
any other shape raises `ValueError`, modelled as `none`. -/
def gcs_object_name_from_uri (gcs_uri : String) : Option String :=
  if Py.startswith gcs_uri ("gs://" ++ BUCKET_NAME ++ "/") then
    some (Py.dropChars gcs_uri (Py.strlen ("gs://" ++ BUCKET_NAME ++ "/")))
  else if Py.startswith gcs_uri ("https://storage.googleapis.com/" ++ BUCKET_NAME ++ "/") then
    some (Py.splitFirst
      (Py.dropChars gcs_uri (Py.strlen ("https://storage.googleapis.com/" ++ BUCKET_NAME ++ "/")))
      "?")
  else none

/-- One line of the ffmpeg concat list written by `stitch_videos`. -/
def concatFileLine (path : String) : String := "file '" ++ path ++ "'\n"

/-- The concat list `stitch_videos` writes for the external media tool: one
`file '<path>'` line per input, in the order given. -/
def stitch_concat_entries (video_paths : List String) : List String :=
  video_paths.map concatFileLine

/-- The pydantic `Scene` request model of `veo_service.py`. -/
structure Scene where
  prompt : String
  dialogue : Option String := none
  frame_image_base64 : Option String := none
  interaction : Option Bool := some false
  task : Option String := none
  expected_response : Option String := none
  interaction_mode : Option String := some "both"

/-- The pydantic `GenerateEpisodeRequest` model of `veo_service.py`. -/
structure GenerateEpisodeRequest where
  scenes : List Scene
  duration_seconds : Int := 8
  aspect_ratio : String := "16:9"
  generate_audio : Bool := true
  style_reference_image_base64 : Option String := none

/-- The pydantic `SceneFeedbackUrls` model of `veo_service.py`. -/
structure SceneFeedbackUrls where
  correct_url : String
  incorrect_url : String

/-- The pydantic `SceneMetadata` model of `veo_service.py`. -/
structure SceneMetadata where
  scene_number : Int
  interaction : Bool
  dialogue : Option String
  task : Option String
  expected_response : Option String
  interaction_mode : Option String

/-- The pydantic `GenerateEpisodeResponse` model of `veo_service.py`. -/
structure GenerateEpisodeResponse where
  stitched_video_url : String
  scene_video_urls : List String
  scene_feedback_urls : List (Option SceneFeedbackUrls)
  scene_idle_urls : List (Option String)
  scene_metadata : List SceneMetadata

/-- Oracles for the external collaborators of the `/generate-episode` loop:
for the scene at 0-based index `idx`, the GCS URI the Veo operation reports
for the main clip, the `tempfile` path it is downloaded to, the URIs of the
three branch clips, and the GCS URL signer (object name to signed URL).
Each oracle models a collaborator call that completed successfully — a Veo
job that errors or a failed download aborts the whole request in the source,
so only completed values flow into the response. -/
structure VeoEnv where
  sceneUri : Nat → String
  localPath : Nat → String
  correctUri : Nat → String
  incorrectUri : Nat → String
  idleUri : Nat → String
  sign : String → String

/-- The mutable lists the scene loop of `generate_episode` accumulates:
`scene_gcs_uris`, `local_video_files`, and the preallocated
`scene_feedback_signed_urls` / `scene_idle_signed_urls` (one slot per scene,
`None` for non-interactive scenes). -/
structure LoopState where
  scene_gcs_uris : List String
  local_video_files : List String
  scene_feedback_signed_urls : List (Option SceneFeedbackUrls)
  scene_idle_signed_urls : List (Option String)

/-- One iteration of `for idx, scene in enumerate(req.scenes)` in
`generate_episode`: appends the scene's reported GCS URI and its local
download path, and — when the scene is interactive — generates the correct,
incorrect and idle branch clips and stores their signed URLs at slot `idx`.
A branch URI with an unexpected format raises (`ValueError`), modelled as
`.error`. -/
def processScene (env : VeoEnv) (idx : Nat) (scene : Scene) (st : LoopState) :
    Except String LoopState :=
  let st := { st with
    scene_gcs_uris := st.scene_gcs_uris ++ [env.sceneUri idx],
    local_video_files := st.local_video_files ++ [env.localPath idx] }
  if pyTruthyOptBool scene.interaction then
    match gcs_object_name_from_uri (env.correctUri idx),
          gcs_object_name_from_uri (env.incorrectUri idx),
          gcs_object_name_from_uri (env.idleUri idx) with
    | some correctObj, some incorrectObj, some idleObj =>
      .ok { st with
        scene_feedback_signed_urls :=
          st.scene_feedback_signed_urls.set idx
            (some ⟨env.sign correctObj, env.sign incorrectObj⟩),
        scene_idle_signed_urls :=
          st.scene_idle_signed_urls.set idx (some (env.sign idleObj)) }
    | _, _, _ => .error "Unexpected GCS URI format"
  else .ok st

/-- The whole scene loop of `generate_episode`, from 0-based index `idx`. -/
def processScenes (env : VeoEnv) : Nat → List Scene → LoopState → Except String LoopState
  | _, [], st => .ok st
  | idx, scene :: rest, st =>
    match processScene env idx scene st with
    | .ok st1 => processScenes env (idx + 1) rest st1
    | .error e => .error e

/-- The loop `for uri in scene_gcs_uris` that signs each scene URI in order
(`get_signed_url(BUCKET_NAME, gcs_object_name_from_uri(uri))`). -/
def signedSceneUrls (env : VeoEnv) : List String → Except String (List String)
  | [] => .ok []
  | uri :: rest =>
    match gcs_object_name_from_uri uri with
    | none => .error "Unexpected GCS URI format"
    | some obj =>
      match signedSceneUrls env rest with
      | .ok urls => .ok (env.sign obj :: urls)
      | .error e => .error e

/-- The `scene_metadata` loop of `generate_episode`, from 0-based index `idx`:
`scene_number` is `idx + 1`, `interaction` is the Python truthiness of the
request field (`scene.interaction or False`), and the interactive-only fields
are `None` for non-interactive scenes. -/
def sceneMetadataFrom : Nat → List Scene → List SceneMetadata
  | _, [] => []
  | idx, scene :: rest =>
    { scene_number := (idx : Int) + 1,
      interaction := pyTruthyOptBool scene.interaction,
      dialogue := scene.dialogue,
      task := if pyTruthyOptBool scene.interaction then scene.task else none,
      expected_response :=
        if pyTruthyOptBool scene.interaction then scene.expected_response else none,
      interaction_mode :=
        if pyTruthyOptBool scene.interaction then scene.interaction_mode else none }
      :: sceneMetadataFrom (idx + 1) rest

/-- The GCS object name the stitched episode is uploaded under. -/
def stitchedObjectName (episode_id : String) : String :=
  "episodes/" ++ episode_id ++ "/episode.mp4"

/-- The `/generate-episode` endpoint of `veo_service.py` on its success path:
validates the scene count, runs the scene loop, stitches (the stitched signed
URL comes from signing the uploaded object), signs the per-scene URIs, and
assembles the response.  `episode_id` stands for the freshly minted
`ep_{timestamp}_{hex}` identifier.  Any raised `HTTPException`/`ValueError`
is `.error`. -/
def generate_episode (env : VeoEnv) (episode_id : String)
    (req : GenerateEpisodeRequest) : Except String GenerateEpisodeResponse :=
  if REQUIRE_SCENE_COUNT > 0 && req.scenes.length != REQUIRE_SCENE_COUNT then
    .error "Exactly REQUIRE_SCENE_COUNT scenes are required."
  else if req.scenes.length ≤ 0 then
    .error "At least 1 scene is required."
  else
    match processScenes env 0 req.scenes
        ⟨[], [], List.replicate req.scenes.length none,
         List.replicate req.scenes.length none⟩ with
    | .error e => .error e
    | .ok st =>
      match signedSceneUrls env st.scene_gcs_uris with
      | .error e => .error e
      | .ok signed_scene_urls =>
        .ok { stitched_video_url := env.sign (stitchedObjectName episode_id),
              scene_video_urls := signed_scene_urls,
              scene_feedback_urls := st.scene_feedback_signed_urls,
              scene_idle_urls := st.scene_idle_signed_urls,
              scene_metadata := sceneMetadataFrom 0 req.scenes }

/-- Expected main-clip download paths for `n` scenes starting at index `k`
(proof-side helper describing the loop's accumulation). -/
def mainClipPaths (env : VeoEnv) : Nat → Nat → List String
  | _, 0 => []
  | k, n + 1 => env.localPath k :: mainClipPaths env (k + 1) n

/-- Expected main-clip GCS URIs for `n` scenes starting at index `k`
(proof-side helper describing the loop's accumulation). -/
def mainClipUris (env : VeoEnv) : Nat → Nat → List String
  | _, 0 => []
  | k, n + 1 => env.sceneUri k :: mainClipUris env (k + 1) n

end VeoService

namespace MainApi

/-- `BUCKET_NAME` from `main.py`. -/
def BUCKET_NAME : String := "veo-video-gen-interactive-episodes"

/-- `gcs_object_name_from_uri` from `main.py`: for a `gs://` reference drops
the scheme (Python `replace` removes every occurrence) and splits off the
bucket with `split("/", 1)`; anything else is returned unchanged. -/
def gcs_object_name_from_uri (uri : String) : String :=
  if Py.startswith uri "gs://" then
    match Py.splitOnce (Py.replace uri "gs://" "") "/" with
    | [_, objectName] => objectName
    | _ => uri
  else uri

/-- `get_signed_url` from `main.py`.  `signOracle` models everything inside
the `try` block after the early return: credential loading and
`generate_signed_url`, returning `some url` on success and `none` when any
exception is raised.  An `http(s)` reference is returned unchanged; on a
signing failure the public non-expiring storage URL is returned. -/
def get_signed_url (signOracle : String → Option String) (gcs_uri : String) : String :=
  if Py.startswith gcs_uri "https://" || Py.startswith gcs_uri "http://" then gcs_uri
  else
    match signOracle (gcs_object_name_from_uri gcs_uri) with
    | some url => url
    | none =>
      "https://storage.googleapis.com/" ++ BUCKET_NAME ++ "/"
        ++ gcs_object_name_from_uri gcs_uri

/-- A value of the JSON payload `GET /episodes/{episode_id}` returns. -/
inductive RVal where
  | str (s : String)
  | int (n : Int)
  | bool (b : Bool)
  | strList (xs : List String)
  | null
  | optPairList (xs : List (Option (String × String)))
  | optStrList (xs : List (Option String))
  | dictList (xs : List (List (String × RVal)))

/-- Python `None`-or-string as a JSON value. -/
def optStr : Option String → RVal
  | some s => .str s
  | none => .null

/-- Python `None`-or-int as a JSON value. -/
def optInt : Option Int → RVal
  | some n => .int n
  | none => .null

/-- First-match lookup in an association-list payload (Python dict keys are
unique, so this is dict lookup). -/
def lookupFirst {α : Type} : List (String × α) → String → Option α
  | [], _ => none
  | (k, v) :: rest, key => if k = key then some v else lookupFirst rest key

/-- A completed episode as stored in `USER_GENERATED_EPISODES`: a document
that passed `validate_episode_schema` and had its URLs attached, plus the
metadata added by the background task.  The validator guarantees interactive
scenes carry the three branch URLs and forbids them on non-interactive scenes;
`get_episode` reads the branch URLs only for interactive scenes, so carrying
them as plain fields (unread for non-interactive scenes) is observationally
faithful.  Fields read with `.get(...)` (which yields `None` when absent) are
`Option`s. -/
structure StoredScene where
  scene_number : Int
  interaction : Bool
  video_url : String
  prompt : Option String
  dialogue : Option String
  interaction_type : Option String
  question : Option String
  options : List String
  correct_answer_index : Option Int
  correct_feedback_url : String
  incorrect_feedback_url : String
  idle_url : String

/-- A stored episode dict (`USER_GENERATED_EPISODES` entry). -/
structure StoredEpisode where
  episode_id : String
  title : String
  description : String
  skills : List String
  scenes : List StoredScene
  character_image : Option String
  character_name : Option String

/-- The per-scene `metadata` dict `get_episode` builds: the base keys, then
the interactive-only keys exactly when `scene["interaction"]` is truthy. -/
def sceneMetadataEntry (scene : StoredScene) : List (String × RVal) :=
  [("scene_number", .int scene.scene_number),
   ("interaction", .bool scene.interaction),
   ("prompt", optStr scene.prompt),
   ("dialogue", optStr scene.dialogue)]
  ++ (if scene.interaction then
        [("interaction_type", .str (scene.interaction_type.getD "quiz")),
         ("question", optStr scene.question),
         ("options", .strList scene.options),
         ("correct_answer_index", optInt scene.correct_answer_index)]
      else [])

/-- The payload `get_episode` returns for a found episode: signed per-scene
URLs, per-scene feedback/idle URLs (`None` slots for non-interactive scenes),
per-scene metadata, and `stitched_video_url` set to the first scene's signed
URL ("for compatibility").  An empty `scenes` list makes
`scene_video_urls[0]` raise `IndexError`, modelled as `none`. -/
def get_episode_payload (signOracle : String → Option String) (ep : StoredEpisode) :
    Option (List (String × RVal)) :=
  let scene_video_urls := ep.scenes.map fun s => get_signed_url signOracle s.video_url
  let scene_feedback_urls := ep.scenes.map fun s =>
    if s.interaction then
      some (get_signed_url signOracle s.correct_feedback_url,
            get_signed_url signOracle s.incorrect_feedback_url)
    else none
  let scene_idle_urls := ep.scenes.map fun s =>
    if s.interaction then some (get_signed_url signOracle s.idle_url) else none
  match scene_video_urls with
  | [] => none
  | firstUrl :: _ =>
    some [("episode_id", .str ep.episode_id),
          ("title", .str ep.title),
          ("description", .str ep.description),
          ("skills", .strList ep.skills),
          ("stitched_video_url", .str firstUrl),
          ("scene_video_urls", .strList scene_video_urls),
          ("scene_feedback_urls", .optPairList scene_feedback_urls),
          ("scene_idle_urls", .optStrList scene_idle_urls),
          ("scene_metadata", .dictList (ep.scenes.map sceneMetadataEntry)),
          ("character_image", optStr ep.character_image),
          ("character_name", optStr ep.character_name)]

/-- The states of `EPISODE_GENERATION_STATUS[episode_id]["status"]`. -/
inductive EpStatus where
  | pending
  | generating
  | complete
  | failed
deriving DecidableEq

/-- The status-map entry for an episode id.  Timestamps (`time.time()`
floats) are modelled as opaque integers; only equality of the stored values
matters to the endpoint. -/
structure StatusInfo where
  status : EpStatus
  error : Option String
  created_at : Int
  updated_at : Int

/-- The string value stored under `"status"`. -/
def statusStr : EpStatus → String
  | .pending => "pending"
  | .generating => "generating"
  | .complete => "complete"
  | .failed => "failed"

/-- `GET /episodes/{episode_id}` from `main.py`.  `statusMap` models
`EPISODE_GENERATION_STATUS`, `episodes` models `USER_GENERATED_EPISODES`.
`.error 404` is the `HTTPException(404)` for an unknown id, `.error 500` the
`IndexError` escaping on an empty scenes list. -/
def get_episode (signOracle : String → Option String)
    (statusMap : List (String × StatusInfo)) (episodes : List StoredEpisode)
    (episode_id : String) : Except Nat (List (String × RVal)) :=
  let fromRegistry : Except Nat (List (String × RVal)) :=
    match episodes.find? (fun ep => ep.episode_id == episode_id) with
    | none => .error 404
    | some ep =>
      match get_episode_payload signOracle ep with
      | none => .error 500
      | some payload => .ok payload
  match lookupFirst statusMap episode_id with
  | some info =>
    if info.status = .pending ∨ info.status = .generating then
      .ok [("episode_id", .str episode_id),
           ("status", .str (statusStr info.status)),
           ("message", .str ("Episode is " ++ statusStr info.status ++ ". Please wait...")),
           ("created_at", .int info.created_at),
           ("updated_at", .int info.updated_at)]
    else if info.status = .failed then
      .ok [("episode_id", .str episode_id),
           ("status", .str "failed"),
           ("error", .str (info.error.getD "Unknown error")),
           ("created_at", .int info.created_at),
           ("updated_at", .int info.updated_at)]
    else fromRegistry
  | none => fromRegistry

end MainApi

namespace CreateEpisodeEngine

/-- A fully populated interactive scene dict declaring `scene_number = n`. -/
def interactiveSceneEx (n : Int) : Scene :=
  [("scene_number", .int n), ("interaction", .bool true),
   ("video_url", .str "gs://placeholder/scene.mp4"),
   ("prompt", .str "prompt"), ("dialogue", .str "dialogue"),
   ("interaction_type", .str "quiz"), ("question", .str "question"),
   ("options", .list [.str "A", .str "B", .str "C", .str "D"]),
   ("correct_answer_index", .int 0),
   ("correct_feedback_url", .str "gs://placeholder/correct.mp4"),
   ("incorrect_feedback_url", .str "gs://placeholder/incorrect.mp4"),
   ("idle_url", .str "gs://placeholder/idle.mp4")]

/-- A fully populated non-interactive scene dict declaring `scene_number = n`. -/
def plainSceneEx (n : Int) : Scene :=
  [("scene_number", .int n), ("interaction", .bool false),
   ("video_url", .str "gs://placeholder/scene.mp4"),
   ("prompt", .str "prompt"), ("dialogue", .str "dialogue")]

/-- Scenes 1..8 with declared numbers matching positions and interactions at
positions 2, 4, 6. -/
def standardScenes : List Scene :=
  [plainSceneEx 1, interactiveSceneEx 2, plainSceneEx 3, interactiveSceneEx 4,
   plainSceneEx 5, interactiveSceneEx 6, plainSceneEx 7, plainSceneEx 8]

/-- A document conforming to the intended schema. -/
def standardDoc : EpisodeData := ⟨true, true, true, true, some standardScenes⟩

/-- Eight scenes whose first two positions carry swapped declared scene
numbers: position 1 declares `scene_number = 2` (and is interactive),
position 2 declares `scene_number = 1` (and is not). -/
def swappedScenes : List Scene :=
  [interactiveSceneEx 2, plainSceneEx 1, plainSceneEx 3, interactiveSceneEx 4,
   plainSceneEx 5, interactiveSceneEx 6, plainSceneEx 7, plainSceneEx 8]

/-- The swapped-scene document. -/
def swappedDoc : EpisodeData := ⟨true, true, true, true, some swappedScenes⟩

/-- A document whose `scenes` list holds a single empty scene dict. -/
def shortDoc : EpisodeData := ⟨true, true, true, true, some [[]]⟩

/-- A document with no top-level fields at all. -/
def emptyDoc : EpisodeData := ⟨false, false, false, false, none⟩

end CreateEpisodeEngine

namespace VeoService

/-- Concrete collaborator oracles for witnesses: every URI lies in the
service bucket, and signing prefixes the object name. -/
def demoEnv : VeoEnv :=
  { sceneUri := fun idx =>
      "gs://" ++ BUCKET_NAME ++ "/episodes/ep_demo/scenes/scene" ++ toString idx ++ ".mp4",
    localPath := fun idx => "/tmp/demo_scene_" ++ toString idx ++ ".mp4",
    correctUri := fun idx =>
      "gs://" ++ BUCKET_NAME ++ "/episodes/ep_demo/scene_" ++ toString idx ++ "/feedback/c.mp4",
    incorrectUri := fun idx =>
      "gs://" ++ BUCKET_NAME ++ "/episodes/ep_demo/scene_" ++ toString idx ++ "/feedback/i.mp4",
    idleUri := fun idx =>
      "gs://" ++ BUCKET_NAME ++ "/episodes/ep_demo/scene_" ++ toString idx ++ "/idle/idle.mp4",
    sign := fun obj => "https://signed.example/" ++ obj }

/-- A two-scene request: one plain scene, one interactive scene. -/
def demoScenes : List Scene :=
  [{ prompt := "scene one", dialogue := some "hello" },
   { prompt := "scene two", dialogue := some "pick one", interaction := some true,
     task := some "pick", expected_response := some "A" }]

/-- The demo request. -/
def demoReq : GenerateEpisodeRequest := { scenes := demoScenes }

/-- The loop state the demo run ends in. -/
def demoLoopState : LoopState :=
  (processScenes demoEnv 0 demoScenes
      ⟨[], [], List.replicate demoScenes.length none,
       List.replicate demoScenes.length none⟩).toOption.getD ⟨[], [], [], []⟩

/-- The response the demo run returns. -/
def demoResp : GenerateEpisodeResponse :=
  (generate_episode demoEnv "ep_demo" demoReq).toOption.getD ⟨"", [], [], [], []⟩

end VeoService

namespace MainApi

/-- A stored non-interactive scene of a completed demo episode (its
never-read branch-URL fields empty). -/
def demoScene1 : StoredScene :=
  { scene_number := 1, interaction := false,
    video_url := "gs://veo-video-gen-interactive-episodes/eps/s1.mp4",
    prompt := some "p1", dialogue := some "d1", interaction_type := none,
    question := none, options := [], correct_answer_index := none,
    correct_feedback_url := "", incorrect_feedback_url := "", idle_url := "" }

/-- A stored interactive scene of a completed demo episode. -/
def demoScene2 : StoredScene :=
  { scene_number := 2, interaction := true,
    video_url := "gs://veo-video-gen-interactive-episodes/eps/s2.mp4",
    prompt := some "p2", dialogue := some "d2", interaction_type := some "quiz",
    question := some "q", options := ["A", "B", "C", "D"], correct_answer_index := some 0,
    correct_feedback_url := "gs://veo-video-gen-interactive-episodes/eps/c2.mp4",
    incorrect_feedback_url := "gs://veo-video-gen-interactive-episodes/eps/i2.mp4",
    idle_url := "gs://veo-video-gen-interactive-episodes/eps/idle2.mp4" }

/-- The demo episode's stored scenes. -/
def demoStoredScenes : List StoredScene := [demoScene1, demoScene2]

/-- The status-map entry the background task leaves for a completed run. -/
def demoStatusInfo : StatusInfo :=
  { status := .complete, error := none, created_at := 0, updated_at := 1 }

/-- A completed stored episode. -/
def demoEp : StoredEpisode :=
  { episode_id := "ep_demo", title := "Demo", description := "Demo episode",
    skills := ["Counting"], scenes := demoStoredScenes,
    character_image := some "data:image/png;base64,AAA", character_name := some "Lumi" }

/-- A status map recording the demo episode as complete. -/
def demoStatusMap : List (String × StatusInfo) :=
  [("ep_demo", demoStatusInfo)]

/-- A signing oracle that always fails (so `get_signed_url` always falls back
to the public URL). -/
def demoSignOracle : String → Option String := fun _ => none

end MainApi

namespace CreateEpisodeEngine

/-- C1: for every initial document and repair-agent output sequence (`doc1`
after the first failed attempt, `doc2` after the second), if validation fails
on each of the first three attempts then the validation phase of
`generate_episode` raises after exactly 3 validation attempts and exactly 2
repair invocations (only between consecutive attempts), carrying the final
violation list; if instead any attempt validates, the document of that
attempt is returned immediately with no further repair call. -/
theorem c1_validation_retry_budget
    (repair : EpisodeData → List String → EpisodeData) (doc0 doc1 doc2 : EpisodeData)
    (h1 : doc1 = repair doc0 (validate_episode_schema doc0).2)
    (h2 : doc2 = repair doc1 (validate_episode_schema doc1).2) :
    ((validate_episode_schema doc0).1 = false →
     (validate_episode_schema doc1).1 = false →
     (validate_episode_schema doc2).1 = false →
      generate_episode_validation repair doc0 =
        ⟨.exhausted (validate_episode_schema doc2).2, 3, 2⟩) ∧
    ((validate_episode_schema doc0).1 = true →
      generate_episode_validation repair doc0 = ⟨.ok doc0, 1, 0⟩) ∧
    ((validate_episode_schema doc0).1 = false →
     (validate_episode_schema doc1).1 = true →
      generate_episode_validation repair doc0 = ⟨.ok doc1, 2, 1⟩) ∧
    ((validate_episode_schema doc0).1 = false →
     (validate_episode_schema doc1).1 = false →
     (validate_episode_schema doc2).1 = true →
      generate_episode_validation repair doc0 = ⟨.ok doc2, 3, 2⟩) := by
  subst h1; subst h2
  refine ⟨?_, ?_, ?_, ?_⟩
  · intro h0 hA hB
    simp [generate_episode_validation, MAX_VALIDATION_RETRIES,
      validationLoopFrom, h0, hA, hB]
  · intro h0
    simp [generate_episode_validation, MAX_VALIDATION_RETRIES,
      validationLoopFrom, h0]
  · intro h0 hA
    simp [generate_episode_validation, MAX_VALIDATION_RETRIES,
      validationLoopFrom, h0, hA]
  · intro h0 hA hB
    simp [generate_episode_validation, MAX_VALIDATION_RETRIES,
      validationLoopFrom, h0, hA, hB]

/-- C1 witness: a document with every field missing never validates; with an
identity repair agent the loop raises after 3 attempts and 2 repairs,
carrying the final violation list. -/
theorem c1_validation_retry_budget_witness :
    (validate_episode_schema emptyDoc).1 = false ∧
    generate_episode_validation (fun doc _ => doc) emptyDoc =
      ⟨.exhausted (validate_episode_schema emptyDoc).2, 3, 2⟩ :=
  ⟨rfl,
   (c1_validation_retry_budget (fun doc _ => doc) emptyDoc emptyDoc emptyDoc
      rfl rfl).1 rfl rfl rfl⟩

/-- C5: `expand_scene` returns a parsed record as is, unwraps a non-empty
sequence to its first element, and falls back to the original stub (without
raising) on anything that is neither — including an empty sequence. -/
theorem c5_expand_scene_fallback (stub : Scene) (resp : ParsedScene) :
    (∀ d, resp = .record d → expand_scene_result stub resp = .record d) ∧
    (∀ first rest, resp = .seq (first :: rest) → expand_scene_result stub resp = first) ∧
    ((∀ d, resp ≠ .record d) → (∀ first rest, resp ≠ .seq (first :: rest)) →
      expand_scene_result stub resp = .record stub) := by
  refine ⟨?_, ?_, ?_⟩
  · rintro d rfl; rfl
  · rintro first rest rfl; rfl
  · intro hrec hseq
    cases resp with
    | record d => exact absurd rfl (hrec d)
    | seq xs =>
      cases xs with
      | nil => rfl
      | cons a as => exact absurd rfl (hseq a as)
    | other => rfl

/-- C5 witness: a singleton sequence is unwrapped to its element; a scalar
response falls back to the stub. -/
theorem c5_expand_scene_fallback_witness :
    expand_scene_result (plainSceneEx 1) (.seq [.record (interactiveSceneEx 2)]) =
      .record (interactiveSceneEx 2) ∧
    expand_scene_result (plainSceneEx 1) .other = .record (plainSceneEx 1) :=
  ⟨(c5_expand_scene_fallback (plainSceneEx 1) _).2.1 _ [] rfl,
   (c5_expand_scene_fallback (plainSceneEx 1) .other).2.2
     (fun _ h => nomatch h) (fun _ _ h => nomatch h)⟩

end CreateEpisodeEngine

namespace VeoService

/-- C7: `build_prompt p d` is the newline-join of `p`, the constant labelled
global style policy, the literal dialogue line exactly when the dialogue is
present and non-empty, and the constant labelled global voice policy —
nothing else. -/
theorem c7_build_prompt_composition (scene_prompt : String) (dialogue : Option String) :
    (∀ s, dialogue = some s → s ≠ "" →
      build_prompt scene_prompt dialogue =
        String.intercalate "\n"
          [scene_prompt,
           "Global style rules: " ++ GLOBAL_STYLE_PROMPT,
           "Spoken dialogue: \"" ++ s ++ "\"",
           "Voice style rules: " ++ GLOBAL_VOICE_PROMPT]) ∧
    (dialogue = none ∨ dialogue = some "" →
      build_prompt scene_prompt dialogue =
        String.intercalate "\n"
          [scene_prompt,
           "Global style rules: " ++ GLOBAL_STYLE_PROMPT,
           "Voice style rules: " ++ GLOBAL_VOICE_PROMPT]) := by
  constructor
  · rintro s rfl hs
    have hempty : s.isEmpty = false := by
      rcases he : s.isEmpty with _ | _
      · rfl
      · exact absurd ((String.isEmpty_iff s).mp he) hs
    simp [build_prompt, pyTruthyOptStr, hempty]
  · rintro (rfl | rfl)
    · simp [build_prompt, pyTruthyOptStr]
    · rfl

/-- C7 witness at a concrete prompt with and without dialogue. -/
theorem c7_build_prompt_composition_witness :
    build_prompt "A sunny field" (some "Hello there!") =
      String.intercalate "\n"
        ["A sunny field",
         "Global style rules: " ++ GLOBAL_STYLE_PROMPT,
         "Spoken dialogue: \"Hello there!\"",
         "Voice style rules: " ++ GLOBAL_VOICE_PROMPT] ∧
    build_prompt "A sunny field" none =
      String.intercalate "\n"
        ["A sunny field",
         "Global style rules: " ++ GLOBAL_STYLE_PROMPT,
         "Voice style rules: " ++ GLOBAL_VOICE_PROMPT] :=
  ⟨(c7_build_prompt_composition "A sunny field" (some "Hello there!")).1
     "Hello there!" rfl (by decide),
   (c7_build_prompt_composition "A sunny field" none).2 (Or.inl rfl)⟩

end VeoService

namespace MainApi

/-- C10: `get_signed_url` is a total function (it never raises): an
`http(s)://` reference is returned unchanged, a failed signing attempt yields
the public non-expiring storage URL, and a successful one yields the signed
URL. -/
theorem c10_get_signed_url_fallback (signOracle : String → Option String) (gcs_uri : String) :
    ((Py.startswith gcs_uri "https://" || Py.startswith gcs_uri "http://") = true →
      get_signed_url signOracle gcs_uri = gcs_uri) ∧
    ((Py.startswith gcs_uri "https://" || Py.startswith gcs_uri "http://") = false →
     signOracle (gcs_object_name_from_uri gcs_uri) = none →
      get_signed_url signOracle gcs_uri =
        "https://storage.googleapis.com/" ++ BUCKET_NAME ++ "/"
          ++ gcs_object_name_from_uri gcs_uri) ∧
    ((Py.startswith gcs_uri "https://" || Py.startswith gcs_uri "http://") = false →
     ∀ url, signOracle (gcs_object_name_from_uri gcs_uri) = some url →
      get_signed_url signOracle gcs_uri = url) := by
  refine ⟨?_, ?_, ?_⟩
  · intro h
    simp [get_signed_url, h]
  · intro h hsign
    simp [get_signed_url, h, hsign]
  · intro h url hsign
    simp [get_signed_url, h, hsign]

/-- C10 witness: an HTTPS reference passes through; a `gs://` reference with
a failing signer becomes the public storage URL. -/
theorem c10_get_signed_url_fallback_witness :
    get_signed_url demoSignOracle "https://example.com/x.mp4" = "https://example.com/x.mp4" ∧
    get_signed_url demoSignOracle "gs://veo-video-gen-interactive-episodes/eps/s1.mp4" =
      "https://storage.googleapis.com/veo-video-gen-interactive-episodes/eps/s1.mp4" :=
  ⟨(c10_get_signed_url_fallback demoSignOracle "https://example.com/x.mp4").1 rfl,
   ((c10_get_signed_url_fallback demoSignOracle
      "gs://veo-video-gen-interactive-episodes/eps/s1.mp4").2.1 rfl rfl).trans rfl⟩

end MainApi

namespace CreateEpisodeEngine

/-- A document that validates has empty top-level, scene-count and per-scene
error lists. -/
theorem valid_parts {d : EpisodeData} {scenes : List Scene} (hs : d.scenes = some scenes)
    (hv : (validate_episode_schema d).1 = true) :
    topFieldMissingErrors d = [] ∧ sceneCountError scenes.length = [] ∧
      scenesErrorsFrom 1 scenes = [] := by
  unfold validate_episode_schema at hv
  rw [hs] at hv
  simp only [List.isEmpty_iff, List.append_eq_nil] at hv
  exact ⟨hv.1.1, hv.1.2, hv.2⟩

/-- If the whole scene loop produced no errors, each scene at 0-based
position `i` (1-based `k + i`) produced none. -/
theorem sceneErrors_nil_of_from_nil :
    ∀ (scenes : List Scene) (k : Nat), scenesErrorsFrom k scenes = [] →
      ∀ i (h : i < scenes.length), sceneErrors (k + i) (scenes.get ⟨i, h⟩) = [] := by
  intro scenes
  induction scenes with
  | nil => intro k _ i h; exact absurd h (by simp)
  | cons s rest ih =>
    intro k hnil i h
    simp only [scenesErrorsFrom, List.append_eq_nil] at hnil
    match i with
    | 0 => simpa using hnil.1
    | Nat.succ j =>
      have hj : j < rest.length := by simpa using h
      have hres := ih (k + 1) hnil.2 j hj
      have hk : k + 1 + j = k + Nat.succ j := by omega
      rw [hk] at hres
      exact hres

/-- An `if` that appends no error message has a true condition. -/
theorem if_bool_nil_left {c : Bool} {msg : List String} (hmsg : msg ≠ [])
    (h : (if c = true then [] else msg) = []) : c = true := by
  by_cases hc : c = true
  · exact hc
  · rw [if_neg hc] at h
    exact absurd h hmsg

/-- An error-free `options` check forces a 4-element list. -/
theorem options_shape_of_nil {v : JVal} {msg : List String} (hmsg : msg ≠ [])
    (h : (if pyIsList v && (match v with | JVal.list xs => xs.length == 4 | _ => false)
          then [] else msg) = []) :
    ∃ xs, v = JVal.list xs ∧ xs.length = 4 := by
  have hc := if_bool_nil_left hmsg h
  obtain ⟨hl, hlen⟩ := Bool.and_eq_true_iff.mp hc
  cases v with
  | list xs => exact ⟨xs, rfl, by simpa using hlen⟩
  | str s => simp [pyIsList] at hl
  | int n => simp [pyIsList] at hl
  | bool b => simp [pyIsList] at hl
  | null => simp [pyIsList] at hl

/-- An error-free `correct_answer_index` check forces an in-range int. -/
theorem idx_shape_of_nil {v : JVal} {msg : List String} (hmsg : msg ≠ [])
    (h : (if pyIsInt v && decide (0 ≤ pyIntVal v) && decide (pyIntVal v ≤ 3)
          then [] else msg) = []) :
    pyIsInt v = true ∧ 0 ≤ pyIntVal v ∧ pyIntVal v ≤ 3 := by
  have hc := if_bool_nil_left hmsg h
  obtain ⟨h12, h3⟩ := Bool.and_eq_true_iff.mp hc
  obtain ⟨h1, h2⟩ := Bool.and_eq_true_iff.mp h12
  exact ⟨h1, of_decide_eq_true h2, of_decide_eq_true h3⟩

/-- What an error-free scene check guarantees: the interaction flag is
Python-equal to membership of the declared scene number in `{2, 4, 6}`; a
truthy interaction implies all interactive fields present, a 4-element
`options` list and an in-range integer `correct_answer_index`; a falsy one
implies all interactive fields absent. -/
theorem sceneErrors_nil_split {i : Nat} {scene : Scene} (h : sceneErrors i scene = []) :
    pyEqBool (getD scene "interaction" (JVal.bool false))
        (inInteractiveSceneIndices (getD scene "scene_number" (JVal.int i))) = true ∧
    (pyTruthy (getD scene "interaction" (JVal.bool false)) = true →
       (∀ f ∈ interactiveFields, containsKey scene f = true) ∧
       (∃ xs, getVal scene "options" = some (JVal.list xs) ∧ xs.length = 4) ∧
       (∃ v, getVal scene "correct_answer_index" = some v ∧ pyIsInt v = true ∧
          0 ≤ pyIntVal v ∧ pyIntVal v ≤ 3)) ∧
    (pyTruthy (getD scene "interaction" (JVal.bool false)) = false →
       ∀ f ∈ interactiveFields, containsKey scene f = false) := by
  simp only [sceneErrors, List.append_eq_nil] at h
  obtain ⟨⟨⟨hreq, hflag⟩, hint⟩, hnon⟩ := h
  refine ⟨?_, ?_, ?_⟩
  · exact if_bool_nil_left (by simp) hflag
  · intro ht
    simp only [ht, if_true, List.append_eq_nil] at hint
    obtain ⟨⟨hmiss, hopts⟩, hidx⟩ := hint
    have hall : ∀ f ∈ interactiveFields, containsKey scene f = true := by
      intro f hf
      have hfm := List.filterMap_eq_nil_iff.mp hmiss f hf
      by_cases hck : containsKey scene f
      · exact hck
      · simp [hck] at hfm
    refine ⟨hall, ?_, ?_⟩
    · have hopt : containsKey scene "options" = true :=
        hall "options" (by simp [interactiveFields])
      obtain ⟨v, hv⟩ := Option.isSome_iff_exists.mp (by simpa [containsKey] using hopt)
      simp only [hv] at hopts
      obtain ⟨xs, hveq, hlen⟩ := options_shape_of_nil (by simp) hopts
      exact ⟨xs, by rw [hv, hveq], hlen⟩
    · have hidxk : containsKey scene "correct_answer_index" = true :=
        hall "correct_answer_index" (by simp [interactiveFields])
      obtain ⟨v, hv⟩ := Option.isSome_iff_exists.mp (by simpa [containsKey] using hidxk)
      simp only [hv] at hidx
      obtain ⟨h1, h2, h3⟩ := idx_shape_of_nil (by simp) hidx
      exact ⟨v, hv, h1, h2, h3⟩
  · intro hf
    simp only [hf, Bool.false_eq_true, if_false] at hnon
    intro f hfm
    have hn := List.filterMap_eq_nil_iff.mp hnon f hfm
    by_cases hck : containsKey scene f
    · simp [hck] at hn
    · simpa using hck

/-- C2 as stated is false on the code: the validator checks the interaction
flag against the scene's *declared* `scene_number`, not its position, and
never checks that the declared number matches the position.  This document
swaps positions 1 and 2: it validates with no violations, yet its first scene
(position 1, not in `{2, 4, 6}`) has `interaction = true` and declares
`scene_number = 2` instead of `1`. -/
theorem c2_position_claim_counterexample :
    (validate_episode_schema swappedDoc).1 = true ∧
    swappedDoc.scenes = some swappedScenes ∧
    getD (swappedScenes.get ⟨0, by decide⟩) "interaction" (JVal.bool false) = JVal.bool true ∧
    getD (swappedScenes.get ⟨0, by decide⟩) "scene_number" (JVal.int 1) = JVal.int 2 := by
  refine ⟨?_, rfl, rfl, rfl⟩
  decide

/-- C2 amended: `validate_episode_schema` returns `is_valid = true` only if
every scene's `interaction` value is Python-equal to the boolean "the
*declared* `scene_number` (defaulting to the position `i + 1` when absent)
lies in `{2, 4, 6}`"; the declared number is not required to equal the
position. -/
theorem c2_interaction_gate_by_declared_number (d : EpisodeData) (scenes : List Scene)
    (hs : d.scenes = some scenes) (hv : (validate_episode_schema d).1 = true) :
    ∀ i (h : i < scenes.length),
      pyEqBool (getD (scenes.get ⟨i, h⟩) "interaction" (JVal.bool false))
        (inInteractiveSceneIndices
          (getD (scenes.get ⟨i, h⟩) "scene_number" (JVal.int (i + 1)))) = true := by
  intro i h
  have hnil := (valid_parts hs hv).2.2
  have hscene := sceneErrors_nil_of_from_nil scenes 1 hnil i h
  have hk : 1 + i = i + 1 := Nat.add_comm 1 i
  rw [hk] at hscene
  exact (sceneErrors_nil_split hscene).1

/-- C2 amended witness at the conforming document's first scene. -/
theorem c2_interaction_gate_witness :
    pyEqBool (getD (standardScenes.get ⟨0, by decide⟩) "interaction" (JVal.bool false))
      (inInteractiveSceneIndices
        (getD (standardScenes.get ⟨0, by decide⟩) "scene_number" (JVal.int 1))) = true := by
  have h := c2_interaction_gate_by_declared_number standardDoc standardScenes rfl rfl 0 (by decide)
  exact h

/-- C3 as stated is false on the code: a wrong scene count does *not* abort
the scene-level checks.  On a document whose `scenes` list holds one empty
scene dict, the violation list contains the scene-count violation *and*
per-scene violations. -/
theorem c3_scene_count_claim_counterexample :
    (validate_episode_schema shortDoc).1 = false ∧
    "Expected 8 scenes, got 1" ∈ (validate_episode_schema shortDoc).2 ∧
    "Scene 1: Missing required field 'scene_number'" ∈ (validate_episode_schema shortDoc).2 := by
  refine ⟨rfl, ?_, ?_⟩ <;> decide

/-- C3 amended: a present `scenes` list of the wrong length yields
`is_valid = false` with a violation list that contains the scene-count
violation followed by the per-scene violations of every scene present (only a
*missing* `scenes` field returns early). -/
theorem c3_scene_count_not_fatal (d : EpisodeData) (scenes : List Scene)
    (hs : d.scenes = some scenes) (hn : scenes.length ≠ REQUIRED_SCENE_COUNT) :
    (validate_episode_schema d).1 = false ∧
    (validate_episode_schema d).2 =
      topFieldMissingErrors d
        ++ ["Expected " ++ toString REQUIRED_SCENE_COUNT ++ " scenes, got "
              ++ toString scenes.length]
        ++ scenesErrorsFrom 1 scenes ∧
    ("Expected " ++ toString REQUIRED_SCENE_COUNT ++ " scenes, got "
        ++ toString scenes.length) ∈ (validate_episode_schema d).2 := by
  have hcount : sceneCountError scenes.length =
      ["Expected " ++ toString REQUIRED_SCENE_COUNT ++ " scenes, got "
         ++ toString scenes.length] := by
    simp [sceneCountError, hn]
  refine ⟨?_, ?_, ?_⟩
  · simp [validate_episode_schema, hs, hcount]
  · simp [validate_episode_schema, hs, hcount]
  · simp [validate_episode_schema, hs, hcount]

/-- C3 amended witness on the one-scene document. -/
theorem c3_scene_count_not_fatal_witness :
    (validate_episode_schema shortDoc).1 = false ∧
    ("Expected " ++ toString REQUIRED_SCENE_COUNT ++ " scenes, got " ++ toString (1 : Nat))
      ∈ (validate_episode_schema shortDoc).2 := by
  have h := c3_scene_count_not_fatal shortDoc [[]] rfl (by decide)
  exact ⟨h.1, h.2.2⟩

/-- C4: on a document that validates, every scene whose `interaction` value
is the boolean `true` carries all seven interactive-only fields, an `options`
list of exactly 4 elements and an integer `correct_answer_index` in `[0, 3]`
(Python's `bool` being an `int` subclass, `pyIsInt`/`pyIntVal` express the
`isinstance(idx, int)` check exactly); and every scene whose `interaction`
value is the boolean `false` carries none of the seven. -/
theorem c4_interactive_field_gating (d : EpisodeData) (scenes : List Scene)
    (hs : d.scenes = some scenes) (hv : (validate_episode_schema d).1 = true)
    (i : Nat) (h : i < scenes.length) :
    (getD (scenes.get ⟨i, h⟩) "interaction" (JVal.bool false) = JVal.bool true →
      (∀ f ∈ interactiveFields, containsKey (scenes.get ⟨i, h⟩) f = true) ∧
      (∃ xs, getVal (scenes.get ⟨i, h⟩) "options" = some (JVal.list xs) ∧ xs.length = 4) ∧
      (∃ v, getVal (scenes.get ⟨i, h⟩) "correct_answer_index" = some v ∧
        pyIsInt v = true ∧ 0 ≤ pyIntVal v ∧ pyIntVal v ≤ 3)) ∧
    (getD (scenes.get ⟨i, h⟩) "interaction" (JVal.bool false) = JVal.bool false →
      ∀ f ∈ interactiveFields, containsKey (scenes.get ⟨i, h⟩) f = false) := by
  have hnil := (valid_parts hs hv).2.2
  have hscene := sceneErrors_nil_of_from_nil scenes 1 hnil i h
  have hsplit := sceneErrors_nil_split hscene
  constructor
  · intro hb
    exact hsplit.2.1 (by rw [hb]; rfl)
  · intro hb
    exact hsplit.2.2 (by rw [hb]; rfl)

/-- C4 witness: in the validated conforming document, the interactive scene
at position 2 carries `question` and the plain scene at position 1 does not. -/
theorem c4_interactive_field_gating_witness :
    containsKey (standardScenes.get ⟨1, by decide⟩) "question" = true ∧
    containsKey (standardScenes.get ⟨0, by decide⟩) "question" = false := by
  have h1 := c4_interactive_field_gating standardDoc standardScenes rfl rfl 1 (by decide)
  have h0 := c4_interactive_field_gating standardDoc standardScenes rfl rfl 0 (by decide)
  exact ⟨(h1.1 rfl).1 "question" (by decide), h0.2 rfl "question" (by decide)⟩

end CreateEpisodeEngine


namespace VeoService

theorem pyTruthyOptBool_eq_true_iff (o : Option Bool) :
    pyTruthyOptBool o = true ↔ o = some true := by
  cases o with
  | none => simp [pyTruthyOptBool]
  | some b => cases b <;> simp [pyTruthyOptBool]

theorem mainClipPaths_length (env : VeoEnv) : ∀ n k, (mainClipPaths env k n).length = n := by
  intro n
  induction n with
  | zero => intro k; rfl
  | succ m ih => intro k; simp [mainClipPaths, ih]

theorem mainClipPaths_getElem? (env : VeoEnv) :
    ∀ n k i, (mainClipPaths env k n)[i]? =
      if i < n then some (env.localPath (k + i)) else none := by
  intro n
  induction n with
  | zero => intro k i; simp [mainClipPaths]
  | succ m ih =>
    intro k i
    cases i with
    | zero => simp [mainClipPaths]
    | succ j =>
      simp only [mainClipPaths, List.getElem?_cons_succ, ih (k + 1) j]
      have hk : k + 1 + j = k + (j + 1) := by omega
      rw [hk]
      simp [Nat.add_lt_add_iff_right]

theorem mainClipUris_length (env : VeoEnv) : ∀ n k, (mainClipUris env k n).length = n := by
  intro n
  induction n with
  | zero => intro k; rfl
  | succ m ih => intro k; simp [mainClipUris, ih]

theorem mainClipUris_getElem? (env : VeoEnv) :
    ∀ n k i, (mainClipUris env k n)[i]? =
      if i < n then some (env.sceneUri (k + i)) else none := by
  intro n
  induction n with
  | zero => intro k i; simp [mainClipUris]
  | succ m ih =>
    intro k i
    cases i with
    | zero => simp [mainClipUris]
    | succ j =>
      simp only [mainClipUris, List.getElem?_cons_succ, ih (k + 1) j]
      have hk : k + 1 + j = k + (j + 1) := by omega
      rw [hk]
      simp [Nat.add_lt_add_iff_right]

theorem processScenes_ok_spec (env : VeoEnv) :
    ∀ (scenes : List Scene) (k : Nat) (st st' : LoopState),
      k + scenes.length ≤ st.scene_feedback_signed_urls.length →
      k + scenes.length ≤ st.scene_idle_signed_urls.length →
      processScenes env k scenes st = .ok st' →
      st'.scene_gcs_uris = st.scene_gcs_uris ++ mainClipUris env k scenes.length ∧
      st'.local_video_files = st.local_video_files ++ mainClipPaths env k scenes.length ∧
      st'.scene_feedback_signed_urls.length = st.scene_feedback_signed_urls.length ∧
      st'.scene_idle_signed_urls.length = st.scene_idle_signed_urls.length ∧
      (∀ i, i < k →
        st'.scene_feedback_signed_urls[i]? = st.scene_feedback_signed_urls[i]? ∧
        st'.scene_idle_signed_urls[i]? = st.scene_idle_signed_urls[i]?) ∧
      (∀ j (hj : j < scenes.length),
        (pyTruthyOptBool (scenes.get ⟨j, hj⟩).interaction = true →
          (∃ fb, st'.scene_feedback_signed_urls[k + j]? = some (some fb)) ∧
          (∃ u, st'.scene_idle_signed_urls[k + j]? = some (some u))) ∧
        (pyTruthyOptBool (scenes.get ⟨j, hj⟩).interaction = false →
          st'.scene_feedback_signed_urls[k + j]? = st.scene_feedback_signed_urls[k + j]? ∧
          st'.scene_idle_signed_urls[k + j]? = st.scene_idle_signed_urls[k + j]?)) := by
  intro scenes
  induction scenes with
  | nil =>
    intro k st st' _ _ hok
    simp only [processScenes] at hok
    cases hok
    refine ⟨by simp [mainClipUris], by simp [mainClipPaths], rfl, rfl, ?_, ?_⟩
    · intro i _; exact ⟨rfl, rfl⟩
    · intro j hj; exact absurd hj (by simp)
  | cons s rest ih =>
    intro k st st' hlf hli hok
    simp only [processScenes, processScene] at hok
    by_cases htr : pyTruthyOptBool s.interaction
    · rcases hco : gcs_object_name_from_uri (env.correctUri k) with _ | co
      · simp [htr, hco] at hok
      rcases hci : gcs_object_name_from_uri (env.incorrectUri k) with _ | io
      · simp [htr, hco, hci] at hok
      rcases hcd : gcs_object_name_from_uri (env.idleUri k) with _ | ido
      · simp [htr, hco, hci, hcd] at hok
      simp only [htr, hco, hci, hcd, if_true] at hok
      simp only [List.length_cons] at hlf hli
      obtain ⟨h1, h2, h3, h4, h5, h6⟩ :=
        ih (k + 1) _ st' (by simp; omega) (by simp; omega) hok
      refine ⟨?_, ?_, ?_, ?_, ?_, ?_⟩
      · rw [h1]; simp [mainClipUris, List.append_assoc]
      · rw [h2]; simp [mainClipPaths, List.append_assoc]
      · rw [h3]; simp
      · rw [h4]; simp
      · intro i hik
        obtain ⟨hf, hidle⟩ := h5 i (by omega)
        constructor
        · rw [hf]; exact List.getElem?_set_ne (by omega)
        · rw [hidle]; exact List.getElem?_set_ne (by omega)
      · intro j hj
        cases j with
        | zero =>
          constructor
          · intro _
            obtain ⟨hf, hidle⟩ := h5 k (by omega)
            constructor
            · refine ⟨⟨env.sign co, env.sign io⟩, ?_⟩
              rw [Nat.add_zero, hf]
              simp [List.getElem?_set_self', List.getElem?_eq_getElem (show k < st.scene_feedback_signed_urls.length by omega)]
            · refine ⟨env.sign ido, ?_⟩
              rw [Nat.add_zero, hidle]
              simp [List.getElem?_set_self', List.getElem?_eq_getElem (show k < st.scene_idle_signed_urls.length by omega)]
          · intro hfalse
            exact absurd (htr.symm.trans hfalse) (by simp)
        | succ j' =>
          have hj' : j' < rest.length := by simpa using hj
          obtain ⟨hT, hF⟩ := h6 j' hj'
          have hidx : k + (j' + 1) = k + 1 + j' := by omega
          constructor
          · intro ht'
            obtain ⟨⟨fb, hfb⟩, u, hu⟩ := hT ht'
            rw [hidx]
            exact ⟨⟨fb, hfb⟩, u, hu⟩
          · intro hf'
            obtain ⟨hfeq, hieq⟩ := hF hf'
            rw [hidx]
            constructor
            · rw [hfeq]; exact List.getElem?_set_ne (by omega)
            · rw [hieq]; exact List.getElem?_set_ne (by omega)
    · simp only [htr, Bool.false_eq_true, if_false] at hok
      simp only [List.length_cons] at hlf hli
      obtain ⟨h1, h2, h3, h4, h5, h6⟩ :=
        ih (k + 1) _ st' (by simp; omega) (by simp; omega) hok
      refine ⟨?_, ?_, ?_, ?_, ?_, ?_⟩
      · rw [h1]; simp [mainClipUris, List.append_assoc]
      · rw [h2]; simp [mainClipPaths, List.append_assoc]
      · exact h3
      · exact h4
      · intro i hik
        exact h5 i (by omega)
      · intro j hj
        cases j with
        | zero =>
          constructor
          · intro htrue
            exact absurd htrue htr
          · intro _
            obtain ⟨hf, hidle⟩ := h5 k (by omega)
            rw [Nat.add_zero]
            exact ⟨hf, hidle⟩
        | succ j' =>
          have hj' : j' < rest.length := by simpa using hj
          obtain ⟨hT, hF⟩ := h6 j' hj'
          have hidx : k + (j' + 1) = k + 1 + j' := by omega
          constructor
          · intro ht'
            obtain ⟨⟨fb, hfb⟩, u, hu⟩ := hT ht'
            rw [hidx]
            exact ⟨⟨fb, hfb⟩, u, hu⟩
          · intro hf'
            obtain ⟨hfeq, hieq⟩ := hF hf'
            rw [hidx]
            exact ⟨hfeq, hieq⟩


theorem signedSceneUrls_spec (env : VeoEnv) :
    ∀ (uris urls : List String), signedSceneUrls env uris = .ok urls →
      urls.length = uris.length ∧
      ∀ (i : Nat) (u : String), uris[i]? = some u →
        ∃ o, gcs_object_name_from_uri u = some o ∧ urls[i]? = some (env.sign o) := by
  intro uris
  induction uris with
  | nil =>
    intro urls hok
    simp only [signedSceneUrls] at hok
    cases hok
    exact ⟨rfl, by intro i u hu; simp at hu⟩
  | cons u rest ih =>
    intro urls hok
    simp only [signedSceneUrls] at hok
    rcases ho : gcs_object_name_from_uri u with _ | o
    · rw [ho] at hok; exact absurd hok (by simp)
    rw [ho] at hok
    rcases hrest : signedSceneUrls env rest with e | urls'
    · rw [hrest] at hok; exact absurd hok (by simp)
    rw [hrest] at hok
    have hurls : urls = env.sign o :: urls' := by
      cases hok; rfl
    subst hurls
    obtain ⟨hlen, hspec⟩ := ih urls' hrest
    constructor
    · simp [hlen]
    · intro i v hv
      cases i with
      | zero =>
        simp only [List.getElem?_cons_zero, Option.some.injEq] at hv
        subst hv
        exact ⟨o, ho, by simp⟩
      | succ j =>
        simp only [List.getElem?_cons_succ] at hv ⊢
        exact hspec j v hv

/-- C6: with the initial accumulator `generate_episode` passes (empty lists,
one preallocated `None` slot per scene), a completed scene loop has appended
exactly one local clip path per scene, in ascending scene-index order (branch
clip generation for interactive scenes never reorders or omits an entry), and
the concat list `stitch_videos` writes for the media tool has the `i`-th
scene's clip path as its `i`-th `file` entry, so position `i` of the stitched
output corresponds to scene `i + 1`. -/
theorem c6_stitch_order (env : VeoEnv) (scenes : List Scene) (st : LoopState)
    (hok : processScenes env 0 scenes
      ⟨[], [], List.replicate scenes.length none, List.replicate scenes.length none⟩ = .ok st) :
    st.local_video_files.length = scenes.length ∧
    (∀ i, i < scenes.length → st.local_video_files[i]? = some (env.localPath i)) ∧
    (stitch_concat_entries st.local_video_files).length = scenes.length ∧
    (∀ i, i < scenes.length →
      (stitch_concat_entries st.local_video_files)[i]? =
        some (concatFileLine (env.localPath i))) := by
  obtain ⟨h1, h2, h3, h4, h5, h6⟩ :=
    processScenes_ok_spec env scenes 0 _ st (by simp) (by simp) hok
  have hfiles : st.local_video_files = mainClipPaths env 0 scenes.length := by
    rw [h2]; simp
  have hlen : st.local_video_files.length = scenes.length := by
    rw [hfiles, mainClipPaths_length]
  refine ⟨hlen, ?_, ?_, ?_⟩
  · intro i hi
    rw [hfiles, mainClipPaths_getElem?]
    simp [hi]
  · simp [stitch_concat_entries, hlen]
  · intro i hi
    simp only [stitch_concat_entries, List.getElem?_map]
    rw [hfiles, mainClipPaths_getElem?]
    simp [hi]

/-- C9: in every successful `/generate-episode` response,
`scene_feedback_urls` and `scene_idle_urls` have one entry per request scene,
non-null exactly for the scenes with `interaction = true` (feedback entries
then carrying both a correct and an incorrect URL, by the
`SceneFeedbackUrls` shape), and `scene_video_urls` holds exactly one signed
URL per scene, in scene order. -/
theorem c9_response_alignment (env : VeoEnv) (episode_id : String)
    (req : GenerateEpisodeRequest) (resp : GenerateEpisodeResponse)
    (hok : generate_episode env episode_id req = .ok resp) :
    resp.scene_feedback_urls.length = req.scenes.length ∧
    resp.scene_idle_urls.length = req.scenes.length ∧
    resp.scene_video_urls.length = req.scenes.length ∧
    ∀ i (hi : i < req.scenes.length),
      ((req.scenes.get ⟨i, hi⟩).interaction = some true →
        (∃ fb, resp.scene_feedback_urls[i]? = some (some fb)) ∧
        (∃ u, resp.scene_idle_urls[i]? = some (some u))) ∧
      ((req.scenes.get ⟨i, hi⟩).interaction ≠ some true →
        resp.scene_feedback_urls[i]? = some none ∧
        resp.scene_idle_urls[i]? = some none) ∧
      (∃ o, gcs_object_name_from_uri (env.sceneUri i) = some o ∧
        resp.scene_video_urls[i]? = some (env.sign o)) := by
  simp only [generate_episode, REQUIRE_SCENE_COUNT] at hok
  rw [if_neg (by simp)] at hok
  by_cases hle : req.scenes.length ≤ 0
  · rw [if_pos hle] at hok
    exact absurd hok (by simp)
  rw [if_neg hle] at hok
  split at hok
  · exact absurd hok (by simp)
  next st hst =>
    split at hok
    · exact absurd hok (by simp)
    next urls hsg =>
      cases hok
      obtain ⟨h1, h2, h3, h4, h5, h6⟩ :=
        processScenes_ok_spec env req.scenes 0 _ st (by simp) (by simp) hst
      obtain ⟨hlen, hspec⟩ := signedSceneUrls_spec env _ urls hsg
      have hflen : st.scene_feedback_signed_urls.length = req.scenes.length := by
        simpa using h3
      have hilen : st.scene_idle_signed_urls.length = req.scenes.length := by
        simpa using h4
      have huris : st.scene_gcs_uris = mainClipUris env 0 req.scenes.length := by
        rw [h1]; simp
      refine ⟨hflen, hilen, ?_, ?_⟩
      · rw [hlen, huris, mainClipUris_length]
      · intro i hi
        obtain ⟨hT, hF⟩ := h6 i hi
        refine ⟨?_, ?_, ?_⟩
        · intro hsome
          have ht : pyTruthyOptBool (req.scenes.get ⟨i, hi⟩).interaction = true :=
            (pyTruthyOptBool_eq_true_iff _).mpr hsome
          obtain ⟨⟨fb, hfb⟩, u, hu⟩ := hT ht
          rw [Nat.zero_add] at hfb hu
          exact ⟨⟨fb, hfb⟩, u, hu⟩
        · intro hne
          have ht : pyTruthyOptBool (req.scenes.get ⟨i, hi⟩).interaction = false := by
            rcases hx : (req.scenes.get ⟨i, hi⟩).interaction with _ | b
            · rfl
            · cases b
              · rfl
              · exact absurd hx hne
          obtain ⟨hfeq, hieq⟩ := hF ht
          rw [Nat.zero_add] at hfeq hieq
          constructor
          · rw [hfeq]; simp [List.getElem?_replicate, hi]
          · rw [hieq]; simp [List.getElem?_replicate, hi]
        · have hu : st.scene_gcs_uris[i]? = some (env.sceneUri i) := by
            rw [huris, mainClipUris_getElem?]
            simp [hi]
          obtain ⟨o, ho, hurl⟩ := hspec i _ hu
          exact ⟨o, ho, hurl⟩


/-- C6 witness on the two-scene demo run. -/
theorem c6_stitch_order_witness :
    demoLoopState.local_video_files.length = 2 ∧
    (stitch_concat_entries demoLoopState.local_video_files)[0]? =
      some (concatFileLine (demoEnv.localPath 0)) ∧
    (stitch_concat_entries demoLoopState.local_video_files)[1]? =
      some (concatFileLine (demoEnv.localPath 1)) := by
  have h := c6_stitch_order demoEnv demoScenes demoLoopState rfl
  exact ⟨h.1, h.2.2.2 0 (by decide), h.2.2.2 1 (by decide)⟩

/-- C9 witness on the two-scene demo run: the plain scene's feedback slot
is null, the interactive scene's is populated. -/
theorem c9_response_alignment_witness :
    demoResp.scene_feedback_urls.length = 2 ∧
    demoResp.scene_feedback_urls[0]? = some none ∧
    (∃ fb, demoResp.scene_feedback_urls[1]? = some (some fb)) := by
  have h := c9_response_alignment demoEnv "ep_demo" demoReq demoResp rfl
  refine ⟨h.1, ?_, ?_⟩
  · exact ((h.2.2.2 0 (by decide)).2.1 (by decide)).1
  · exact ((h.2.2.2 1 (by decide)).1 rfl).1

end VeoService

namespace MainApi

/-- The payload `get_episode` builds for a found episode with a non-empty
scenes list, as an explicit key/value list. -/
theorem get_episode_payload_eq (signOracle : String → Option String)
    (ep : StoredEpisode) (s0 : StoredScene) (srest : List StoredScene)
    (hsc : ep.scenes = s0 :: srest) :
    get_episode_payload signOracle ep =
      some [("episode_id", .str ep.episode_id),
            ("title", .str ep.title),
            ("description", .str ep.description),
            ("skills", .strList ep.skills),
            ("stitched_video_url", .str (get_signed_url signOracle s0.video_url)),
            ("scene_video_urls",
              .strList (ep.scenes.map fun s => get_signed_url signOracle s.video_url)),
            ("scene_feedback_urls", .optPairList (ep.scenes.map fun s =>
              if s.interaction then
                some (get_signed_url signOracle s.correct_feedback_url,
                      get_signed_url signOracle s.incorrect_feedback_url)
              else none)),
            ("scene_idle_urls", .optStrList (ep.scenes.map fun s =>
              if s.interaction then some (get_signed_url signOracle s.idle_url) else none)),
            ("scene_metadata", .dictList (ep.scenes.map sceneMetadataEntry)),
            ("character_image", optStr ep.character_image),
            ("character_name", optStr ep.character_name)] := by
  unfold get_episode_payload
  rw [hsc]
  simp only [List.map_cons]


/-- C8 amended: for every completed episode (status `complete`, stored in
the registry, at least one scene), `GET /episodes/{episode_id}` returns a
payload containing `episode_id`, `title`, `description`, `skills`, signed
`scene_video_urls` (one per scene, in order), `scene_feedback_urls` and
`scene_idle_urls` (null at non-interactive scenes), `scene_metadata` entries
carrying `scene_number`, `interaction`, `prompt`, `dialogue` and — exactly
for interactive scenes — `interaction_type`, `question`, `options`,
`correct_answer_index` (but never `video_url`), `stitched_video_url` equal to
the *first scene's* signed URL, `character_image` and `character_name` — and
*no* `status` field at all. -/
theorem c8_completed_payload (signOracle : String → Option String)
    (statusMap : List (String × StatusInfo)) (episodes : List StoredEpisode)
    (episode_id : String) (info : StatusInfo) (ep : StoredEpisode)
    (s0 : StoredScene) (srest : List StoredScene)
    (hst : lookupFirst statusMap episode_id = some info)
    (hc : info.status = .complete)
    (hep : episodes.find? (fun e => e.episode_id == episode_id) = some ep)
    (hsc : ep.scenes = s0 :: srest) :
    ∃ payload, get_episode signOracle statusMap episodes episode_id = .ok payload ∧
      lookupFirst payload "episode_id" = some (.str ep.episode_id) ∧
      lookupFirst payload "title" = some (.str ep.title) ∧
      lookupFirst payload "description" = some (.str ep.description) ∧
      lookupFirst payload "skills" = some (.strList ep.skills) ∧
      lookupFirst payload "stitched_video_url" =
        some (.str (get_signed_url signOracle s0.video_url)) ∧
      lookupFirst payload "scene_video_urls" =
        some (.strList (ep.scenes.map fun s => get_signed_url signOracle s.video_url)) ∧
      lookupFirst payload "scene_feedback_urls" = some (.optPairList (ep.scenes.map fun s =>
        if s.interaction then
          some (get_signed_url signOracle s.correct_feedback_url,
                get_signed_url signOracle s.incorrect_feedback_url)
        else none)) ∧
      lookupFirst payload "scene_idle_urls" = some (.optStrList (ep.scenes.map fun s =>
        if s.interaction then some (get_signed_url signOracle s.idle_url) else none)) ∧
      lookupFirst payload "scene_metadata" =
        some (.dictList (ep.scenes.map sceneMetadataEntry)) ∧
      lookupFirst payload "character_image" = some (optStr ep.character_image) ∧
      lookupFirst payload "character_name" = some (optStr ep.character_name) ∧
      lookupFirst payload "status" = none ∧
      (∀ sc ∈ ep.scenes,
        lookupFirst (sceneMetadataEntry sc) "scene_number" = some (.int sc.scene_number) ∧
        lookupFirst (sceneMetadataEntry sc) "interaction" = some (.bool sc.interaction) ∧
        lookupFirst (sceneMetadataEntry sc) "prompt" = some (optStr sc.prompt) ∧
        lookupFirst (sceneMetadataEntry sc) "dialogue" = some (optStr sc.dialogue) ∧
        lookupFirst (sceneMetadataEntry sc) "video_url" = none ∧
        (sc.interaction = true →
          lookupFirst (sceneMetadataEntry sc) "interaction_type" =
            some (.str (sc.interaction_type.getD "quiz")) ∧
          lookupFirst (sceneMetadataEntry sc) "question" = some (optStr sc.question) ∧
          lookupFirst (sceneMetadataEntry sc) "options" = some (.strList sc.options) ∧
          lookupFirst (sceneMetadataEntry sc) "correct_answer_index" =
            some (optInt sc.correct_answer_index)) ∧
        (sc.interaction = false →
          lookupFirst (sceneMetadataEntry sc) "interaction_type" = none ∧
          lookupFirst (sceneMetadataEntry sc) "question" = none ∧
          lookupFirst (sceneMetadataEntry sc) "options" = none ∧
          lookupFirst (sceneMetadataEntry sc) "correct_answer_index" = none)) := by
  have hpay : get_episode signOracle statusMap episodes episode_id =
      .ok [("episode_id", .str ep.episode_id),
           ("title", .str ep.title),
           ("description", .str ep.description),
           ("skills", .strList ep.skills),
           ("stitched_video_url", .str (get_signed_url signOracle s0.video_url)),
           ("scene_video_urls",
             .strList (ep.scenes.map fun s => get_signed_url signOracle s.video_url)),
           ("scene_feedback_urls", .optPairList (ep.scenes.map fun s =>
             if s.interaction then
               some (get_signed_url signOracle s.correct_feedback_url,
                     get_signed_url signOracle s.incorrect_feedback_url)
             else none)),
           ("scene_idle_urls", .optStrList (ep.scenes.map fun s =>
             if s.interaction then some (get_signed_url signOracle s.idle_url) else none)),
           ("scene_metadata", .dictList (ep.scenes.map sceneMetadataEntry)),
           ("character_image", optStr ep.character_image),
           ("character_name", optStr ep.character_name)] := by
    unfold get_episode
    rw [hst, hep]
    simp only [hc, reduceCtorEq, or_self, if_false, false_or, or_false]
    rw [get_episode_payload_eq signOracle ep s0 srest hsc]
  refine ⟨_, hpay, ?_, ?_, ?_, ?_, ?_, ?_, ?_, ?_, ?_, ?_, ?_, ?_, ?_⟩
  · simp [lookupFirst]
  · simp [lookupFirst]
  · simp [lookupFirst]
  · simp [lookupFirst]
  · simp [lookupFirst]
  · simp [lookupFirst]
  · simp [lookupFirst]
  · simp [lookupFirst]
  · simp [lookupFirst]
  · simp [lookupFirst]
  · simp [lookupFirst]
  · simp [lookupFirst]
  · intro sc _
    refine ⟨?_, ?_, ?_, ?_, ?_, ?_, ?_⟩
    · simp [sceneMetadataEntry, lookupFirst]
    · simp [sceneMetadataEntry, lookupFirst]
    · simp [sceneMetadataEntry, lookupFirst]
    · simp [sceneMetadataEntry, lookupFirst]
    · by_cases hi : sc.interaction <;> simp [sceneMetadataEntry, lookupFirst, hi]
    · intro hi
      refine ⟨?_, ?_, ?_, ?_⟩ <;> simp [sceneMetadataEntry, lookupFirst, hi]
    · intro hi
      refine ⟨?_, ?_, ?_, ?_⟩ <;> simp [sceneMetadataEntry, lookupFirst, hi]


/-- C8 as stated is false on the code: the completed-episode payload has no
`status` key (so no `status = "complete"`), and its scene entries carry no
`video_url` (the video URLs live in the separate `scene_video_urls` list). -/
theorem c8_payload_claim_counterexample :
    (get_episode demoSignOracle demoStatusMap [demoEp] "ep_demo").isOk = true ∧
    lookupFirst ((get_episode demoSignOracle demoStatusMap [demoEp] "ep_demo").toOption.getD [])
      "status" = none ∧
    lookupFirst (sceneMetadataEntry demoScene1) "video_url" = none :=
  ⟨rfl, rfl, rfl⟩

/-- C8 amended witness: the demo completed episode is returned successfully. -/
theorem c8_completed_payload_witness :
    (get_episode demoSignOracle demoStatusMap [demoEp] "ep_demo").isOk = true := by
  obtain ⟨p, hp, _⟩ := c8_completed_payload demoSignOracle demoStatusMap [demoEp] "ep_demo"
    demoStatusInfo demoEp demoScene1 [demoScene2] rfl rfl rfl rfl
  rw [hp]
  rfl

end MainApi
